import Mathlib

/-!
Shallow embedding of the heybeauty-mcp repository: the `HeyBeautyClient`
remote-API client (src/heybeauty.ts) and the MCP protocol handlers
(the unnamed server source file).  Stateful JavaScript code is modelled as
pure functions from the remote HTTP response (delivered by `fetch`) to an
outcome recording both the outbound request body that was issued (if any)
and the result (success value or thrown error).
-/

/-- Decidable equality for `Except`, needed so that outcomes of the modelled
operations can be compared by `decide` on concrete inputs. -/
instance {ε α : Type} [DecidableEq ε] [DecidableEq α] : DecidableEq (Except ε α)
  | .error e, .error e' =>
    if h : e = e' then isTrue (by rw [h]) else isFalse (by intro hc; cases hc; exact h rfl)
  | .error _, .ok _ => isFalse (by intro h; cases h)
  | .ok _, .error _ => isFalse (by intro h; cases h)
  | .ok a, .ok b =>
    if h : a = b then isTrue (by rw [h]) else isFalse (by intro hc; cases hc; exact h rfl)

namespace HeyBeauty

/-- Errors thrown by the `HeyBeautyClient` methods, tagged by their cause and
carrying the exact JavaScript `Error` message text. -/
inductive ClientError where
  | transport (text : String)
  | remote (text : String)
  | invalidArgs (text : String)
deriving DecidableEq

/-- The `message` property of the thrown JavaScript `Error`. -/
def ClientError.message : ClientError → String
  | .transport t => t
  | .remote t => t
  | .invalidArgs t => t

/-- The uniform remote response envelope `{ code, message, data }` parsed from
the JSON body by each client method. -/
structure Envelope (α : Type) where
  code : Int
  message : String
  data : α
deriving DecidableEq

/-- An HTTP response as seen by the client after `fetch` resolves: the status
code and the parsed JSON body. -/
structure HttpResponse (α : Type) where
  status : Nat
  body : Envelope α
deriving DecidableEq

/-- The `resp.ok` property of a fetch response: status in the range 200-299. -/
def respOk (status : Nat) : Bool :=
  200 ≤ status && status ≤ 299

/-- JavaScript `x || d` for an optional string `x`: the empty string and an
absent value are falsy, every other string is truthy. -/
def jsOrStr (v : Option String) (d : String) : String :=
  match v with
  | some s => if s = "" then d else s
  | none => d

/-- JavaScript truthiness of an optional string: `true` exactly when the value
is present and non-empty. -/
def jsTruthy (v : Option String) : Bool :=
  match v with
  | some s => s != ""
  | none => false

/-- JavaScript `x || ""` on an optional string field of the remote data. -/
def jsStrOrEmpty (v : Option String) : String :=
  match v with
  | some s => s
  | none => ""

/-- One clothing record of the remote list-clothes response, with the fields the
program reads. -/
structure ClothingItem where
  cloth_id : String
  title : String
  description : String
  cloth_img_url : String
deriving DecidableEq

/-- The remote task record (the `data` of the submit-task and query-task
envelopes), with the fields the program reads.  `tryon_img_url` is optional
because the code guards it with `|| ""`. -/
structure TaskData where
  uuid : String
  created_at : String
  updated_at : String
  status : String
  tryon_img_url : Option String
deriving DecidableEq

/-- The task projection returned by `submitTask` and `queryTask`. -/
structure TryOnTask where
  task_id : String
  created_at : String
  updated_at : String
  status : String
  tryon_img_url : String
deriving DecidableEq

/-- The arguments of `HeyBeautyClient.submitTask`; the two optional fields may
be absent (`undefined` in JavaScript). -/
structure SubmitArgs where
  user_img_url : String
  cloth_img_url : String
  cloth_id : Option String
  cloth_description : Option String
deriving DecidableEq

/-- The outbound JSON body built by `submitTask`: two fixed fields
`category = "1"` and `is_sync = "0"`, and the two optional keys that are set
only when their argument is truthy.  The structure lists exactly the keys the
code can ever put in the request object. -/
structure SubmitBody where
  user_img_url : String
  cloth_img_url : String
  category : String
  is_sync : String
  cloth_id : Option String
  caption : Option String
deriving DecidableEq

/-- The outbound JSON body of `queryTask`. -/
structure QueryBody where
  task_uuid : String
deriving DecidableEq

/-- Outcome of a `submitTask` call: the request body that was sent (none when
validation failed before `fetch`) and the settled result. -/
structure SubmitOutcome where
  request : Option SubmitBody
  result : Except ClientError TryOnTask
deriving DecidableEq

/-- Outcome of a `queryTask` call: the request body (always sent) and the
settled result. -/
structure QueryOutcome where
  request : QueryBody
  result : Except ClientError TryOnTask
deriving DecidableEq

/-- Embedding of `HeyBeautyClient.getClothes`: checks `resp.ok`, then the
envelope code, then returns the raw `data`. -/
def getClothes (resp : HttpResponse (List ClothingItem)) :
    Except ClientError (List ClothingItem) :=
  if !respOk resp.status then
    .error (.transport ("request failed with status " ++ toString resp.status))
  else if resp.body.code ≠ 0 then
    .error (.remote resp.body.message)
  else
    .ok resp.body.data

/-- The request object built by `submitTask` after validation: fixed
`category`/`is_sync` fields, optional keys added only when truthy. -/
def submitBody (a : SubmitArgs) : SubmitBody :=
  { user_img_url := a.user_img_url
    cloth_img_url := a.cloth_img_url
    category := "1"
    is_sync := "0"
    cloth_id := if jsTruthy a.cloth_id then a.cloth_id else none
    caption := if jsTruthy a.cloth_description then a.cloth_description else none }

/-- Embedding of `HeyBeautyClient.submitTask`: validates that both image URLs
are non-empty before any request is issued, then sends the built body, checks
`resp.ok` and the envelope code, and projects the remote data into a
`TryOnTask` with `task_id` taken from the remote `uuid`. -/
def submitTask (a : SubmitArgs) (resp : HttpResponse TaskData) : SubmitOutcome :=
  if a.user_img_url = "" ∨ a.cloth_img_url = "" then
    { request := none
      result := .error (.invalidArgs "user_img_url and cloth_img_url are required") }
  else
    { request := some (submitBody a)
      result :=
        if !respOk resp.status then
          .error (.transport ("request failed with status " ++ toString resp.status))
        else if resp.body.code ≠ 0 then
          .error (.remote resp.body.message)
        else
          .ok { task_id := resp.body.data.uuid
                created_at := resp.body.data.created_at
                updated_at := resp.body.data.updated_at
                status := resp.body.data.status
                tryon_img_url := jsStrOrEmpty resp.body.data.tryon_img_url } }

/-- Embedding of `HeyBeautyClient.queryTask`: no validation, always sends
`{ task_uuid: task_id }`, checks `resp.ok` and the envelope code, and projects
the remote data into a `TryOnTask` that echoes the caller-supplied `task_id`. -/
def queryTask (task_id : String) (resp : HttpResponse TaskData) : QueryOutcome :=
  { request := { task_uuid := task_id }
    result :=
      if !respOk resp.status then
        .error (.transport ("request failed with status: " ++ toString resp.status))
      else if resp.body.code ≠ 0 then
        .error (.remote resp.body.message)
      else
        .ok { task_id := task_id
              created_at := resp.body.data.created_at
              updated_at := resp.body.data.updated_at
              status := resp.body.data.status
              tryon_img_url := jsStrOrEmpty resp.body.data.tryon_img_url } }

/-- Effective API key of a handler, as computed by the JavaScript expression
`getAuthValue(request, "HEYBEAUTY_API_KEY") || heybeautyApiKey`, where the
request-scoped value (possibly absent) takes precedence when truthy. -/
def resolveApiKey (requestKey : Option String) (defaultKey : String) : String :=
  jsOrStr requestKey defaultKey

/-- A resource descriptor produced by the list-resources handler. -/
structure Resource where
  uri : String
  mimeType : String
  name : String
  description : String
deriving DecidableEq

/-- A content entry produced by the read-resource handler. -/
structure ResourceContent where
  uri : String
  mimeType : String
  text : String
deriving DecidableEq

/-- Modelled from the spec: the platform URL parser used by the read-resource
handler (`new URL(uri).pathname` followed by removal of one leading slash),
which is library code outside this repository.  For a URI of the form
`cloth:///` followed by a path of URL-safe characters the pathname is the part
after `cloth://`, and stripping its single leading slash yields that path;
other strings are treated as a parse failure (the URL constructor throws). -/
def extractClothId (uri : String) : Option String :=
  if uri.data.take 9 = "cloth:///".data then some (String.mk (uri.data.drop 9)) else none

/-- Characters for which the modelled URL parser is faithful to the platform
one: they are left unchanged in a URL pathname (no percent-encoding, no
query/fragment/slash delimiters). -/
def urlSafe (s : String) : Bool :=
  s.data.all fun c => c.isAlphanum || c = '-' || c = '_' || c = '.'

/-- URI under which the list-resources handler exposes a clothing item. -/
def clothUri (c : ClothingItem) : String :=
  "cloth:///" ++ c.cloth_id

/-- Catch clause shared by the list-resources, read-resource and call-tool
handlers: a thrown error is re-thrown with the operation label glued in front
of its message, a success passes through unchanged. -/
def wrapCaught {α : Type} (label : String) (r : Except String α) : Except String α :=
  match r with
  | .error m => .error (label ++ m)
  | .ok v => .ok v

/-- Try block of the `ListResourcesRequestSchema` handler: resolves the
effective API key, fetches the clothes, and maps each to a resource
descriptor. -/
def listResourcesBody (requestKey : Option String) (defaultKey : String)
    (resp : HttpResponse (List ClothingItem)) : Except String (List Resource) :=
  if resolveApiKey requestKey defaultKey = "" then
    .error "HEYBEAUTY_API_KEY is not set"
  else
    match getClothes resp with
    | .error e => .error e.message
    | .ok clothes =>
        .ok (clothes.map fun c =>
          { uri := clothUri c
            mimeType := "text/plain"
            name := c.title
            description := c.description })

/-- Embedding of the `ListResourcesRequestSchema` handler: the try block with
every thrown error re-surfaced under the "get resources failed: " prefix. -/
def listResourcesHandler (requestKey : Option String) (defaultKey : String)
    (resp : HttpResponse (List ClothingItem)) : Except String (List Resource) :=
  wrapCaught "get resources failed: " (listResourcesBody requestKey defaultKey resp)

/-- Try block of the `ReadResourceRequestSchema` handler: resolves the
effective API key, parses the URI, fetches the clothes, and linearly searches
for the first item whose `cloth_id` equals the extracted id. -/
def readResourceBody (requestKey : Option String) (defaultKey : String)
    (uri : String) (resp : HttpResponse (List ClothingItem)) :
    Except String ResourceContent :=
  if resolveApiKey requestKey defaultKey = "" then
    .error "HEYBEAUTY_API_KEY is not set"
  else
    match extractClothId uri with
    | none => .error "Invalid URL"
    | some id =>
        match getClothes resp with
        | .error e => .error e.message
        | .ok clothes =>
            match clothes.find? (fun c => c.cloth_id == id) with
            | none => .error ("Cloth " ++ id ++ " not found")
            | some cloth =>
                .ok { uri := uri, mimeType := "text/plain", text := cloth.cloth_img_url }

/-- Embedding of the `ReadResourceRequestSchema` handler: the try block with
every thrown error re-surfaced under the "read resource failed: " prefix. -/
def readResourceHandler (requestKey : Option String) (defaultKey : String)
    (uri : String) (resp : HttpResponse (List ClothingItem)) :
    Except String ResourceContent :=
  wrapCaught "read resource failed: " (readResourceBody requestKey defaultKey uri resp)

/-- A tool descriptor of the static tool list (name and its required argument
names, the part of the schema the claims mention). -/
structure ToolDescriptor where
  name : String
  required : List String
deriving DecidableEq

/-- Embedding of the `ListToolsRequestSchema` handler: a static list, built
without reading any API key.  The key parameters mirror what is in scope in
the handler closure and are unused, exactly as in the source. -/
def listToolsHandler (_requestKey : Option String) (_defaultKey : String) :
    Except String (List ToolDescriptor) :=
  .ok [ { name := "submit_tryon_task", required := ["user_img_url", "cloth_img_url"] },
        { name := "query_tryon_task", required := ["task_id"] } ]

/-- Arguments of a call-tool request: the tool name and the optional string
arguments the two tools read (an absent field models JavaScript `undefined`). -/
structure ToolCallParams where
  name : String
  user_img_url : Option String
  cloth_img_url : Option String
  cloth_id : Option String
  cloth_description : Option String
  task_id : Option String
deriving DecidableEq

/-- JavaScript `String(x)` applied to a possibly-undefined string argument:
an absent value is coerced to the literal string "undefined". -/
def jsStringCoerce (v : Option String) : String :=
  match v with
  | some s => s
  | none => "undefined"

/-- An HTTP request issued by the call-tool handler through the client. -/
inductive OutboundRequest where
  | submit (body : SubmitBody)
  | query (body : QueryBody)
deriving DecidableEq

/-- Outcome of a call-tool invocation: the HTTP request issued through the
client, if any, and the settled result (a `TryOnTask` whose serialization is
the tool text output, or the thrown error message). -/
structure ToolOutcome where
  request : Option OutboundRequest
  result : Except String TryOnTask
deriving DecidableEq

/-- Try block of the `CallToolRequestSchema` handler: resolves the effective
API key, dispatches on the tool name, coerces arguments like the source
(`String(x || "")` for the submit-tool arguments, `String(x)` for `task_id`),
validates, and delegates to the client; client errors propagate with their
message text. -/
def callToolBody (requestKey : Option String) (defaultKey : String)
    (p : ToolCallParams) (resp : HttpResponse TaskData) : ToolOutcome :=
  if resolveApiKey requestKey defaultKey = "" then
    { request := none, result := .error "HEYBEAUTY_API_KEY is not set" }
  else if p.name = "submit_tryon_task" then
    if jsStrOrEmpty p.user_img_url = "" then
      { request := none, result := .error "user image is required" }
    else if jsStrOrEmpty p.cloth_img_url = "" then
      { request := none, result := .error "cloth image is required" }
    else
      let o := submitTask
        { user_img_url := jsStrOrEmpty p.user_img_url
          cloth_img_url := jsStrOrEmpty p.cloth_img_url
          cloth_id := some (jsStrOrEmpty p.cloth_id)
          cloth_description := some (jsStrOrEmpty p.cloth_description) } resp
      { request := o.request.map .submit
        result :=
          match o.result with
          | .error e => .error e.message
          | .ok t => .ok t }
  else if p.name = "query_tryon_task" then
    if jsStringCoerce p.task_id = "" then
      { request := none, result := .error "task id is required" }
    else
      let o := queryTask (jsStringCoerce p.task_id) resp
      { request := some (.query o.request)
        result :=
          match o.result with
          | .error e => .error e.message
          | .ok t => .ok t }
  else
    { request := none, result := .error "Unknown tool" }

/-- Embedding of the `CallToolRequestSchema` handler: the try block with every
thrown error re-surfaced under the "call tool failed: " prefix. -/
def callToolHandler (requestKey : Option String) (defaultKey : String)
    (p : ToolCallParams) (resp : HttpResponse TaskData) : ToolOutcome :=
  { request := (callToolBody requestKey defaultKey p resp).request
    result := wrapCaught "call tool failed: " (callToolBody requestKey defaultKey p resp).result }

/-- A prompt descriptor of the static prompt list. -/
structure PromptDescriptor where
  name : String
  description : String
deriving DecidableEq

/-- Embedding of the `ListPromptsRequestSchema` handler: a static list, built
without reading any API key. -/
def listPromptsHandler (_requestKey : Option String) (_defaultKey : String) :
    Except String (List PromptDescriptor) :=
  .ok [ { name := "tryon_cloth", description := "Tryon with user image and cloth image" } ]

/-- A prompt message returned by the get-prompt handler (role and indication of
the fixed instructional text). -/
structure PromptMessage where
  role : String
  text : String
deriving DecidableEq

/-- The fixed instructional text of the `tryon_cloth` prompt (abbreviated to
its opening words; its exact content is not referenced by any claim). -/
def tryonPromptText : String :=
  "You are a helpful assistant that helps users try on clothes virtually."

/-- Embedding of the `GetPromptRequestSchema` handler: no try/catch wrapper in
the source, so the "Unknown prompt" error is surfaced as thrown, without any
operation prefix.  The key parameters mirror the handler closure scope and are
unused, exactly as in the source. -/
def getPromptHandler (_requestKey : Option String) (_defaultKey : String)
    (name : String) : Except String PromptMessage :=
  if name ≠ "tryon_cloth" then
    .error "Unknown prompt"
  else
    .ok { role := "user", text := tryonPromptText }

/-- Boolean string-prefix test used to state claims about error-message
prefixes on concrete inputs. -/
def strStartsWith (p s : String) : Bool :=
  p.data.isPrefixOf s.data

/-- Helper: a status outside 200-299 makes `resp.ok` false. -/
theorem respOk_false {s : Nat} (h : s < 200 ∨ 299 < s) : respOk s = false := by
  rcases h with h | h <;> simp [respOk] <;> omega

/-- C1: for each of the three client operations (getClothes, submitTask,
queryTask), on a successful HTTP response whose envelope has `code ≠ 0` the
operation fails with an error whose text is exactly the envelope's `message`
(for any non-zero code value), and when `code = 0` it returns the envelope's
`data` (for getClothes) or its projection (for the task operations) without
error. -/
theorem client_envelope_code_dispatch
    (rc : HttpResponse (List ClothingItem)) (rs rq : HttpResponse TaskData)
    (a : SubmitArgs) (tid : String)
    (hc : respOk rc.status = true) (hs : respOk rs.status = true)
    (hq : respOk rq.status = true)
    (hu : a.user_img_url ≠ "") (hcl : a.cloth_img_url ≠ "") :
    (rc.body.code ≠ 0 →
      getClothes rc = Except.error (ClientError.remote rc.body.message)) ∧
    (rc.body.code = 0 → getClothes rc = Except.ok rc.body.data) ∧
    (rs.body.code ≠ 0 →
      (submitTask a rs).result = Except.error (ClientError.remote rs.body.message)) ∧
    (rs.body.code = 0 →
      (submitTask a rs).result = Except.ok
        { task_id := rs.body.data.uuid
          created_at := rs.body.data.created_at
          updated_at := rs.body.data.updated_at
          status := rs.body.data.status
          tryon_img_url := jsStrOrEmpty rs.body.data.tryon_img_url }) ∧
    (rq.body.code ≠ 0 →
      (queryTask tid rq).result = Except.error (ClientError.remote rq.body.message)) ∧
    (rq.body.code = 0 →
      (queryTask tid rq).result = Except.ok
        { task_id := tid
          created_at := rq.body.data.created_at
          updated_at := rq.body.data.updated_at
          status := rq.body.data.status
          tryon_img_url := jsStrOrEmpty rq.body.data.tryon_img_url }) := by
  refine ⟨fun h => ?_, fun h => ?_, fun h => ?_, fun h => ?_, fun h => ?_, fun h => ?_⟩ <;>
    simp [getClothes, submitTask, queryTask, hc, hs, hq, hu, hcl, h]

/-- Witness for C1 at concrete inputs: a non-zero code surfaces the message,
and a zero code returns the projection. -/
theorem client_envelope_code_dispatch_witness :
    getClothes ⟨200, ⟨5, "boom", []⟩⟩ = Except.error (ClientError.remote "boom") ∧
    (queryTask "t1" ⟨200, ⟨0, "ok", ⟨"u1", "c1", "d1", "pending", none⟩⟩⟩).result =
      Except.ok ⟨"t1", "c1", "d1", "pending", ""⟩ := by
  have h := client_envelope_code_dispatch ⟨200, ⟨5, "boom", []⟩⟩
    ⟨200, ⟨0, "ok", ⟨"u1", "c1", "d1", "pending", none⟩⟩⟩
    ⟨200, ⟨0, "ok", ⟨"u1", "c1", "d1", "pending", none⟩⟩⟩
    ⟨"https://x/u.jpg", "https://x/c.jpg", none, none⟩ "t1"
    (by decide) (by decide) (by decide) (by decide) (by decide)
  exact ⟨h.1 (by decide), h.2.2.2.2.2 (by decide)⟩

/-- C2: for each of the three client operations, every HTTP response with a
status outside 200-299 fails with a transport error whose text carries that
status code, and the result is the same for every envelope body, so the body
is never interpreted as the envelope in that case. -/
theorem client_non2xx_transport
    (s : Nat) (hs : s < 200 ∨ 299 < s)
    (a : SubmitArgs) (tid : String)
    (hu : a.user_img_url ≠ "") (hcl : a.cloth_img_url ≠ "") :
    (∀ b : Envelope (List ClothingItem),
      getClothes ⟨s, b⟩ =
        Except.error (ClientError.transport ("request failed with status " ++ toString s))) ∧
    (∀ b : Envelope TaskData,
      (submitTask a ⟨s, b⟩).result =
        Except.error (ClientError.transport ("request failed with status " ++ toString s))) ∧
    (∀ b : Envelope TaskData,
      (queryTask tid ⟨s, b⟩).result =
        Except.error (ClientError.transport ("request failed with status: " ++ toString s))) := by
  have hok : respOk s = false := respOk_false hs
  refine ⟨fun b => ?_, fun b => ?_, fun b => ?_⟩ <;>
    simp [getClothes, submitTask, queryTask, hu, hcl, hok]

/-- Witness for C2 at a concrete input: status 404 yields the transport error
for all three operations. -/
theorem client_non2xx_transport_witness :
    getClothes ⟨404, ⟨0, "ok", []⟩⟩ =
      Except.error (ClientError.transport "request failed with status 404") ∧
    (queryTask "t1" ⟨404, ⟨0, "ok", ⟨"u1", "c1", "d1", "pending", none⟩⟩⟩).result =
      Except.error (ClientError.transport "request failed with status: 404") := by
  have h := client_non2xx_transport 404 (by decide)
    ⟨"https://x/u.jpg", "https://x/c.jpg", none, none⟩ "t1" (by decide) (by decide)
  exact ⟨h.1 ⟨0, "ok", []⟩, h.2.2 ⟨0, "ok", ⟨"u1", "c1", "d1", "pending", none⟩⟩⟩

/-- C3: whenever `user_img_url` or `cloth_img_url` is the empty string,
`submitTask` fails with the validation error and issues no HTTP request,
for every value of the optional `cloth_id` and `cloth_description` fields
(they are universally quantified inside `a`) and every would-be response. -/
theorem submitTask_empty_url_validation
    (a : SubmitArgs) (h : a.user_img_url = "" ∨ a.cloth_img_url = "") :
    ∀ resp : HttpResponse TaskData,
      (submitTask a resp).request = none ∧
      (submitTask a resp).result =
        Except.error (ClientError.invalidArgs "user_img_url and cloth_img_url are required") := by
  intro resp
  rcases h with h | h <;> simp [submitTask, h]

/-- Witness for C3 at a concrete input: an empty user image URL with both
optional fields supplied. -/
theorem submitTask_empty_url_validation_witness :
    (submitTask ⟨"", "https://x/c.jpg", some "id7", some "desc"⟩
        ⟨200, ⟨0, "ok", ⟨"u1", "c1", "d1", "pending", none⟩⟩⟩).request = none ∧
    (submitTask ⟨"", "https://x/c.jpg", some "id7", some "desc"⟩
        ⟨200, ⟨0, "ok", ⟨"u1", "c1", "d1", "pending", none⟩⟩⟩).result =
      Except.error (ClientError.invalidArgs "user_img_url and cloth_img_url are required") :=
  submitTask_empty_url_validation ⟨"", "https://x/c.jpg", some "id7", some "desc"⟩
    (Or.inl rfl) ⟨200, ⟨0, "ok", ⟨"u1", "c1", "d1", "pending", none⟩⟩⟩

/-- C4: every validated `submitTask` call sends a body holding exactly the
fields `user_img_url`, `cloth_img_url`, `category = "1"`, `is_sync = "0"`
(the `SubmitBody` record has no other keys), plus `cloth_id` verbatim exactly
when a non-empty `cloth_id` was supplied and `caption` equal to
`cloth_description` exactly when a non-empty description was supplied. -/
theorem submitTask_request_body
    (a : SubmitArgs) (resp : HttpResponse TaskData)
    (hu : a.user_img_url ≠ "") (hcl : a.cloth_img_url ≠ "") :
    ∃ b : SubmitBody, (submitTask a resp).request = some b ∧
      b.user_img_url = a.user_img_url ∧
      b.cloth_img_url = a.cloth_img_url ∧
      b.category = "1" ∧
      b.is_sync = "0" ∧
      (∀ s, a.cloth_id = some s → s ≠ "" → b.cloth_id = some s) ∧
      (a.cloth_id = none → b.cloth_id = none) ∧
      (a.cloth_id = some "" → b.cloth_id = none) ∧
      (∀ s, a.cloth_description = some s → s ≠ "" → b.caption = some s) ∧
      (a.cloth_description = none → b.caption = none) ∧
      (a.cloth_description = some "" → b.caption = none) := by
  refine ⟨submitBody a, by simp [submitTask, hu, hcl], rfl, rfl, rfl, rfl,
    fun s hcid hne => ?_, fun hcid => ?_, fun hcid => ?_,
    fun s hcd hne => ?_, fun hcd => ?_, fun hcd => ?_⟩ <;>
    simp_all [submitBody, jsTruthy]

/-- Witness for C4 at a concrete input: a supplied cloth id and an omitted
description. -/
theorem submitTask_request_body_witness :
    ∃ b : SubmitBody,
      (submitTask ⟨"https://x/u.jpg", "https://x/c.jpg", some "id7", none⟩
          ⟨200, ⟨0, "ok", ⟨"u1", "c1", "d1", "pending", none⟩⟩⟩).request = some b ∧
      b.user_img_url = "https://x/u.jpg" ∧
      b.cloth_img_url = "https://x/c.jpg" ∧
      b.category = "1" ∧
      b.is_sync = "0" ∧
      (∀ s, (some "id7" : Option String) = some s → s ≠ "" → b.cloth_id = some s) ∧
      ((some "id7" : Option String) = none → b.cloth_id = none) ∧
      ((some "id7" : Option String) = some "" → b.cloth_id = none) ∧
      (∀ s, (none : Option String) = some s → s ≠ "" → b.caption = some s) ∧
      ((none : Option String) = none → b.caption = none) ∧
      ((none : Option String) = some "" → b.caption = none) :=
  submitTask_request_body ⟨"https://x/u.jpg", "https://x/c.jpg", some "id7", none⟩
    ⟨200, ⟨0, "ok", ⟨"u1", "c1", "d1", "pending", none⟩⟩⟩ (by decide) (by decide)

/-- C5: on every successful remote response, `submitTask` returns the
projection whose `task_id` is the remote data's `uuid` and `queryTask` returns
the projection whose `task_id` is the caller-supplied one regardless of the
remote content; `created_at`, `updated_at` and `status` are copied from the
remote data, and `tryon_img_url` is the remote value when truthy (present and
non-empty) and the empty string otherwise. -/
theorem task_projection
    (a : SubmitArgs) (rs rq : HttpResponse TaskData) (tid : String)
    (hu : a.user_img_url ≠ "") (hcl : a.cloth_img_url ≠ "")
    (hs : respOk rs.status = true) (hq : respOk rq.status = true)
    (hcs : rs.body.code = 0) (hcq : rq.body.code = 0) :
    (submitTask a rs).result = Except.ok
      { task_id := rs.body.data.uuid
        created_at := rs.body.data.created_at
        updated_at := rs.body.data.updated_at
        status := rs.body.data.status
        tryon_img_url := jsStrOrEmpty rs.body.data.tryon_img_url } ∧
    (queryTask tid rq).result = Except.ok
      { task_id := tid
        created_at := rq.body.data.created_at
        updated_at := rq.body.data.updated_at
        status := rq.body.data.status
        tryon_img_url := jsStrOrEmpty rq.body.data.tryon_img_url } ∧
    (∀ v : Option String, ∀ s, v = some s → s ≠ "" → jsStrOrEmpty v = s) ∧
    (∀ v : Option String, v = none ∨ v = some "" → jsStrOrEmpty v = "") := by
  refine ⟨?_, ?_, fun v s hv _ => ?_, fun v hv => ?_⟩
  · simp [submitTask, hu, hcl, hs, hcs]
  · simp [queryTask, hq, hcq]
  · simp [jsStrOrEmpty, hv]
  · rcases hv with hv | hv <;> simp [jsStrOrEmpty, hv]

/-- Witness for C5 at the spec's example scenario: remote uuid "abc123",
status "pending", absent tryon image URL. -/
theorem task_projection_witness :
    (submitTask ⟨"https://x/u.jpg", "https://x/c.jpg", none, none⟩
        ⟨200, ⟨0, "ok", ⟨"abc123", "c1", "d1", "pending", none⟩⟩⟩).result =
      Except.ok ⟨"abc123", "c1", "d1", "pending", ""⟩ ∧
    (queryTask "mytask" ⟨200, ⟨0, "ok", ⟨"other-uuid", "c2", "d2", "succeeded",
        some "https://x/r.jpg"⟩⟩⟩).result =
      Except.ok ⟨"mytask", "c2", "d2", "succeeded", "https://x/r.jpg"⟩ := by
  have h := task_projection ⟨"https://x/u.jpg", "https://x/c.jpg", none, none⟩
    ⟨200, ⟨0, "ok", ⟨"abc123", "c1", "d1", "pending", none⟩⟩⟩
    ⟨200, ⟨0, "ok", ⟨"other-uuid", "c2", "d2", "succeeded", some "https://x/r.jpg"⟩⟩⟩
    "mytask" (by decide) (by decide) (by decide) (by decide) (by decide) (by decide)
  exact ⟨h.1, h.2.1⟩

/-- C10: `queryTask` performs no validation: for every `task_id`, including
the empty string, it sends the body `{ task_uuid: task_id }`, and it can fail
only with the transport error of a non-2xx status or the remote error of a
non-zero envelope code, never with a validation error. -/
theorem queryTask_no_validation (tid : String) (resp : HttpResponse TaskData) :
    (queryTask tid resp).request = { task_uuid := tid } ∧
    (∀ e, (queryTask tid resp).result = Except.error e →
      (respOk resp.status = false ∧
        e = ClientError.transport ("request failed with status: " ++ toString resp.status)) ∨
      (respOk resp.status = true ∧ resp.body.code ≠ 0 ∧
        e = ClientError.remote resp.body.message)) ∧
    (∀ m, (queryTask tid resp).result ≠ Except.error (ClientError.invalidArgs m)) := by
  refine ⟨rfl, fun e he => ?_, fun m hm => ?_⟩
  · cases hok : respOk resp.status with
    | false =>
        left
        refine ⟨rfl, ?_⟩
        simp [queryTask, hok] at he
        exact he.symm
    | true =>
        by_cases hc : resp.body.code = 0
        · simp [queryTask, hok, hc] at he
        · right
          refine ⟨rfl, hc, ?_⟩
          simp [queryTask, hok, hc] at he
          exact he.symm
  · cases hok : respOk resp.status with
    | false => simp [queryTask, hok] at hm
    | true =>
        by_cases hc : resp.body.code = 0 <;> simp [queryTask, hok, hc] at hm

/-- Witness for C10 at the empty task id and a concrete non-2xx response. -/
theorem queryTask_no_validation_witness :
    (queryTask "" ⟨500, ⟨0, "ok", ⟨"u1", "c1", "d1", "pending", none⟩⟩⟩).request =
      { task_uuid := "" } ∧
    ((respOk 500 = false ∧
      ClientError.transport ("request failed with status: " ++ toString 500) =
        ClientError.transport ("request failed with status: " ++ toString 500)) ∨
     (respOk 500 = true ∧ (0 : Int) ≠ 0 ∧
      ClientError.transport ("request failed with status: " ++ toString 500) =
        ClientError.remote "ok")) := by
  have h := queryTask_no_validation "" ⟨500, ⟨0, "ok", ⟨"u1", "c1", "d1", "pending", none⟩⟩⟩
  exact ⟨h.1, h.2.1 (ClientError.transport ("request failed with status: " ++ toString 500))
    (by decide)⟩

/-- Helper: in a list of clothing items with pairwise distinct ids, the linear
search of the read-resource handler finds exactly the member with a given id. -/
theorem find_cloth_of_mem_distinct
    (l : List ClothingItem) (c : ClothingItem) (hmem : c ∈ l)
    (hdist : l.Pairwise (fun a b => a.cloth_id ≠ b.cloth_id)) :
    l.find? (fun x => x.cloth_id == c.cloth_id) = some c := by
  induction l with
  | nil => cases hmem
  | cons hd tl ih =>
      rcases List.mem_cons.mp hmem with rfl | hmem'
      · simp [List.find?]
      · have hdh : hd.cloth_id ≠ c.cloth_id :=
          (List.pairwise_cons.mp hdist).1 _ hmem'
        have htl := (List.pairwise_cons.mp hdist).2
        have hne : (hd.cloth_id == c.cloth_id) = false := by
          simp [hdh]
        rw [List.find?_cons, hne]
        exact ih hmem' htl

/-- Helper: the modelled URL parsing inverts the URI construction of the
list-resources handler. -/
theorem extractClothId_clothUri (c : ClothingItem) :
    extractClothId (clothUri c) = some c.cloth_id := by
  have h9 : ("cloth:///".data).length = 9 := by decide
  unfold extractClothId clothUri
  rw [String.data_append, ← h9, List.take_left, List.drop_left, if_pos rfl]

/-- C6: for every clothing item of a valid remote list response (successful
envelope, pairwise distinct URL-safe ids), the list-resources handler exposes
the resource with URI `cloth:///` followed by the item's id, and — the remote
returning the same list on the second call — the read-resource handler on that
URI extracts the same id, finds the item, and returns exactly its
`cloth_img_url` as the text content. -/
theorem cloth_resource_round_trip
    (resp : HttpResponse (List ClothingItem)) (c : ClothingItem)
    (requestKey : Option String) (defaultKey : String)
    (hkey : resolveApiKey requestKey defaultKey ≠ "")
    (hok : respOk resp.status = true) (hcode : resp.body.code = 0)
    (hmem : c ∈ resp.body.data)
    (hdist : resp.body.data.Pairwise (fun a b => a.cloth_id ≠ b.cloth_id))
    (_hsafe : urlSafe c.cloth_id = true) :
    (∃ rs : List Resource,
      listResourcesHandler requestKey defaultKey resp = Except.ok rs ∧
      { uri := clothUri c, mimeType := "text/plain", name := c.title,
        description := c.description : Resource } ∈ rs) ∧
    extractClothId (clothUri c) = some c.cloth_id ∧
    readResourceHandler requestKey defaultKey (clothUri c) resp =
      Except.ok { uri := clothUri c, mimeType := "text/plain", text := c.cloth_img_url } := by
  have hclothes : getClothes resp = Except.ok resp.body.data := by
    simp [getClothes, hok, hcode]
  refine ⟨⟨resp.body.data.map fun x =>
      { uri := clothUri x, mimeType := "text/plain", name := x.title,
        description := x.description }, ?_, ?_⟩, extractClothId_clothUri c, ?_⟩
  · simp [listResourcesHandler, listResourcesBody, wrapCaught, hkey, hclothes]
  · exact List.mem_map_of_mem _ hmem
  · simp [readResourceHandler, readResourceBody, wrapCaught, hkey,
      extractClothId_clothUri, hclothes,
      find_cloth_of_mem_distinct resp.body.data c hmem hdist]

/-- Witness for C6 at a concrete two-item catalog, reading the second item. -/
theorem cloth_resource_round_trip_witness :
    extractClothId (clothUri ⟨"id2", "t2", "d2", "https://img/2.jpg"⟩) = some "id2" ∧
    readResourceHandler (some "k") "" (clothUri ⟨"id2", "t2", "d2", "https://img/2.jpg"⟩)
        ⟨200, ⟨0, "ok", [⟨"id1", "t1", "d1", "https://img/1.jpg"⟩,
                         ⟨"id2", "t2", "d2", "https://img/2.jpg"⟩]⟩⟩ =
      Except.ok { uri := clothUri ⟨"id2", "t2", "d2", "https://img/2.jpg"⟩,
                  mimeType := "text/plain", text := "https://img/2.jpg" } := by
  have h := cloth_resource_round_trip
    ⟨200, ⟨0, "ok", [⟨"id1", "t1", "d1", "https://img/1.jpg"⟩,
                     ⟨"id2", "t2", "d2", "https://img/2.jpg"⟩]⟩⟩
    ⟨"id2", "t2", "d2", "https://img/2.jpg"⟩ (some "k") ""
    (by decide) (by decide) (by decide) (by decide) (by decide) (by decide)
  exact ⟨h.2.1, h.2.2⟩

/-- C7 counterexample: with no `task_id` argument at all, the call-tool
handler does not fail with the "task id is required" validation error; the
missing value is coerced to the truthy string "undefined" and the HTTP request
is issued with `task_uuid = "undefined"`. -/
theorem query_tool_missing_task_id_counterexample :
    (callToolHandler (some "k") ""
        ⟨"query_tryon_task", none, none, none, none, none⟩
        ⟨200, ⟨0, "ok", ⟨"u1", "c1", "d1", "pending", none⟩⟩⟩).request =
      some (OutboundRequest.query { task_uuid := "undefined" }) ∧
    (callToolHandler (some "k") ""
        ⟨"query_tryon_task", none, none, none, none, none⟩
        ⟨200, ⟨0, "ok", ⟨"u1", "c1", "d1", "pending", none⟩⟩⟩).result =
      Except.ok ⟨"undefined", "c1", "d1", "pending", ""⟩ := by
  decide

/-- C7 amended: when the supplied `task_id` coerces to the empty string, the
call-tool handler fails with the "task id is required" validation error and no
HTTP request is issued; a missing `task_id` is instead coerced to the literal
string "undefined", passes the truthiness check, and the HTTP request is
issued with it. -/
theorem query_tool_empty_task_id_validation
    (requestKey : Option String) (defaultKey : String) (p : ToolCallParams)
    (resp : HttpResponse TaskData)
    (hkey : resolveApiKey requestKey defaultKey ≠ "")
    (hname : p.name = "query_tryon_task")
    (htid : p.task_id = some "") :
    (callToolHandler requestKey defaultKey p resp).request = none ∧
    (callToolHandler requestKey defaultKey p resp).result =
      Except.error ("call tool failed: " ++ "task id is required") ∧
    (∀ q : ToolCallParams, q.name = "query_tryon_task" → q.task_id = none →
      (callToolHandler requestKey defaultKey q resp).request =
        some (OutboundRequest.query { task_uuid := "undefined" })) := by
  refine ⟨?_, ?_, fun q hq hqt => ?_⟩
  · simp [callToolHandler, callToolBody, wrapCaught, hkey, hname, htid, jsStringCoerce]
  · simp [callToolHandler, callToolBody, wrapCaught, hkey, hname, htid, jsStringCoerce]
  · simp [callToolHandler, callToolBody, wrapCaught, hkey, hq, hqt,
      jsStringCoerce, queryTask]

/-- Witness for the amended C7 at a concrete empty task id. -/
theorem query_tool_empty_task_id_validation_witness :
    (callToolHandler (some "k") ""
        ⟨"query_tryon_task", none, none, none, none, some ""⟩
        ⟨200, ⟨0, "ok", ⟨"u1", "c1", "d1", "pending", none⟩⟩⟩).request = none ∧
    (callToolHandler (some "k") ""
        ⟨"query_tryon_task", none, none, none, none, some ""⟩
        ⟨200, ⟨0, "ok", ⟨"u1", "c1", "d1", "pending", none⟩⟩⟩).result =
      Except.error ("call tool failed: " ++ "task id is required") := by
  have h := query_tool_empty_task_id_validation (some "k") ""
    ⟨"query_tryon_task", none, none, none, none, some ""⟩
    ⟨200, ⟨0, "ok", ⟨"u1", "c1", "d1", "pending", none⟩⟩⟩
    (by decide) (by decide) (by decide)
  exact ⟨h.1, h.2.1⟩

/-- C8 counterexample: with no API key anywhere (no request-scoped value and
an empty process-wide default), the list-tools and get-prompt handlers succeed
instead of failing with the "API key not set" error: they perform no key
resolution at all. -/
theorem api_key_not_checked_counterexample :
    listToolsHandler none "" = Except.ok
      [ { name := "submit_tryon_task", required := ["user_img_url", "cloth_img_url"] },
        { name := "query_tryon_task", required := ["task_id"] } ] ∧
    getPromptHandler none "" "tryon_cloth" =
      Except.ok { role := "user", text := tryonPromptText } :=
  ⟨rfl, rfl⟩

/-- C8 amended: the list-resources, read-resource and call-tool handlers each
first resolve an effective API key, the request-scoped value taking precedence
over the process-wide default, and fail with "HEYBEAUTY_API_KEY is not set"
under their operation prefix when neither is present; the list-tools,
list-prompts and get-prompt handlers perform no key resolution and behave
identically for every key configuration. -/
theorem api_key_resolution_amended :
    (∀ s d : String, s ≠ "" → resolveApiKey (some s) d = s) ∧
    (∀ d : String, resolveApiKey none d = d) ∧
    (∀ d : String, resolveApiKey (some "") d = d) ∧
    (∀ (rk : Option String) (dk : String) (resp : HttpResponse (List ClothingItem)),
      rk = none ∨ rk = some "" → dk = "" →
      listResourcesHandler rk dk resp =
        Except.error ("get resources failed: " ++ "HEYBEAUTY_API_KEY is not set")) ∧
    (∀ (rk : Option String) (dk uri : String) (resp : HttpResponse (List ClothingItem)),
      rk = none ∨ rk = some "" → dk = "" →
      readResourceHandler rk dk uri resp =
        Except.error ("read resource failed: " ++ "HEYBEAUTY_API_KEY is not set")) ∧
    (∀ (rk : Option String) (dk : String) (p : ToolCallParams)
        (resp : HttpResponse TaskData),
      rk = none ∨ rk = some "" → dk = "" →
      callToolHandler rk dk p resp =
        { request := none,
          result := Except.error ("call tool failed: " ++ "HEYBEAUTY_API_KEY is not set") }) ∧
    (∀ (k₁ : Option String) (d₁ : String) (k₂ : Option String) (d₂ : String),
      listToolsHandler k₁ d₁ = listToolsHandler k₂ d₂) ∧
    (∀ (k₁ : Option String) (d₁ : String) (k₂ : Option String) (d₂ : String),
      listPromptsHandler k₁ d₁ = listPromptsHandler k₂ d₂) ∧
    (∀ (k₁ : Option String) (d₁ : String) (k₂ : Option String) (d₂ : String)
        (nm : String),
      getPromptHandler k₁ d₁ nm = getPromptHandler k₂ d₂ nm) := by
  refine ⟨fun s d hs => ?_, fun d => ?_, fun d => ?_,
    fun rk dk resp hrk hdk => ?_, fun rk dk uri resp hrk hdk => ?_,
    fun rk dk p resp hrk hdk => ?_,
    fun _ _ _ _ => rfl, fun _ _ _ _ => rfl, fun _ _ _ _ _ => rfl⟩
  · simp [resolveApiKey, jsOrStr, hs]
  · rfl
  · rfl
  · rcases hrk with rfl | rfl <;> subst hdk <;>
      simp [listResourcesHandler, listResourcesBody, wrapCaught, resolveApiKey, jsOrStr]
  · rcases hrk with rfl | rfl <;> subst hdk <;>
      simp [readResourceHandler, readResourceBody, wrapCaught, resolveApiKey, jsOrStr]
  · rcases hrk with rfl | rfl <;> subst hdk <;>
      simp [callToolHandler, callToolBody, wrapCaught, resolveApiKey, jsOrStr]

/-- Witness for the amended C8 at concrete inputs: request-scoped precedence
and the failure of the call-tool handler with no key anywhere. -/
theorem api_key_resolution_amended_witness :
    resolveApiKey (some "req-key") "default-key" = "req-key" ∧
    callToolHandler none "" ⟨"query_tryon_task", none, none, none, none, some "t1"⟩
        ⟨200, ⟨0, "ok", ⟨"u1", "c1", "d1", "pending", none⟩⟩⟩ =
      { request := none,
        result := Except.error ("call tool failed: " ++ "HEYBEAUTY_API_KEY is not set") } := by
  have h := api_key_resolution_amended
  exact ⟨h.1 "req-key" "default-key" (by decide),
    h.2.2.2.2.2.1 none "" ⟨"query_tryon_task", none, none, none, none, some "t1"⟩
      ⟨200, ⟨0, "ok", ⟨"u1", "c1", "d1", "pending", none⟩⟩⟩ (Or.inl rfl) rfl⟩

/-- Helper: a string starts with itself glued in front of anything. -/
theorem strStartsWith_append (p c : String) : strStartsWith p (p ++ c) = true := by
  unfold strStartsWith
  rw [String.data_append]
  exact List.isPrefixOf_iff_prefix.mpr (List.prefix_append _ _)

/-- Helper: every error coming out of the shared catch clause carries the
operation label as a prefix. -/
theorem wrapCaught_error {α : Type} (label : String) (r : Except String α) (m : String)
    (h : wrapCaught label r = Except.error m) : strStartsWith label m = true := by
  cases r with
  | error x =>
      injection h with h
      rw [← h]
      exact strStartsWith_append label x
  | ok v => exact Except.noConfusion h

/-- C9 counterexample: the get-prompt handler has no catch clause, so its
"Unknown prompt" error reaches the MCP caller bare, without any
operation-failed prefix. -/
theorem get_prompt_error_no_wrap_counterexample :
    getPromptHandler none "" "nonexistent" = Except.error "Unknown prompt" ∧
    strStartsWith "get prompt failed: " "Unknown prompt" = false ∧
    strStartsWith "get resources failed: " "Unknown prompt" = false ∧
    strStartsWith "read resource failed: " "Unknown prompt" = false ∧
    strStartsWith "call tool failed: " "Unknown prompt" = false := by
  decide

/-- C9 amended: every error raised inside the list-resources, read-resource
and call-tool handlers is caught at that handler's boundary and re-surfaced as
a single failure prefixed with the operation that failed, and none is retried;
the get-prompt handler, however, surfaces its "Unknown prompt" error without
such a prefix. -/
theorem handler_error_wrapping_amended :
    (∀ (rk : Option String) (dk : String) (resp : HttpResponse (List ClothingItem))
        (m : String),
      listResourcesHandler rk dk resp = Except.error m →
      strStartsWith "get resources failed: " m = true) ∧
    (∀ (rk : Option String) (dk uri : String) (resp : HttpResponse (List ClothingItem))
        (m : String),
      readResourceHandler rk dk uri resp = Except.error m →
      strStartsWith "read resource failed: " m = true) ∧
    (∀ (rk : Option String) (dk : String) (p : ToolCallParams)
        (resp : HttpResponse TaskData) (m : String),
      (callToolHandler rk dk p resp).result = Except.error m →
      strStartsWith "call tool failed: " m = true) ∧
    (∀ (rk : Option String) (dk nm m : String),
      getPromptHandler rk dk nm = Except.error m → m = "Unknown prompt") := by
  refine ⟨fun rk dk resp m h => wrapCaught_error _ _ _ h,
    fun rk dk uri resp m h => wrapCaught_error _ _ _ h,
    fun rk dk p resp m h => wrapCaught_error _ _ _ h,
    fun rk dk nm m h => ?_⟩
  unfold getPromptHandler at h
  split at h
  · injection h with h
    exact h.symm
  · exact Except.noConfusion h

/-- Witness for the amended C9 at a concrete input: an unknown tool name
produces an error carrying the "call tool failed: " prefix. -/
theorem handler_error_wrapping_amended_witness :
    strStartsWith "call tool failed: " ("call tool failed: " ++ "Unknown tool") = true :=
  handler_error_wrapping_amended.2.2.1 (some "k") ""
    ⟨"bogus_tool", none, none, none, none, none⟩
    ⟨200, ⟨0, "ok", ⟨"u1", "c1", "d1", "pending", none⟩⟩⟩
    ("call tool failed: " ++ "Unknown tool") (by decide)

end HeyBeauty
